import Mathlib

/-!
Verification of the Wasabi file-storage bot (src/main.py, src/web_server.py):
a shallow embedding of its metadata store (`FileDatabase`), identifier
generator (`generate_file_id`), progress throttler (the nested
`upload_progress` / `download_progress` closures), transfer configuration,
and lifecycle handlers (`handle_file_upload`, `download_command`, the
`confirm_delete_` branch of `handle_callbacks`), together with theorems
settling the claims of the specification about them.
-/

namespace Wasabibot

/-- The metadata record of one stored file: the `file_metadata` dict built in
`handle_file_upload` (main.py lines 709-716). -/
structure FileMetadata where
  name : String
  size : Nat
  mime_type : String
  wasabi_key : String
  upload_date : String
  telegram_file_id : String
  deriving DecidableEq, Repr

/-- The persisted mapping `id -> record`, modelled as an association list to
keep the dict insertion order of Python. -/
abbrev FilesDB := List (String × FileMetadata)

/-- Python `dict.get k`: first binding of `k`, if any. -/
def dictGet (k : String) : List (String × FileMetadata) → Option FileMetadata
  | [] => none
  | (a, v) :: rest => if a = k then some v else dictGet k rest

/-- Python `d[k] = v`: replace in place when the key is present, append
otherwise (dict insertion-order semantics). -/
def dictInsert (k : String) (v : FileMetadata) (m : FilesDB) : FilesDB :=
  if (dictGet k m).isSome then
    m.map (fun p => if p.1 = k then (k, v) else p)
  else
    m ++ [(k, v)]

/-- Python `del d[k]`: drop the binding of `k`. -/
def dictRemove (k : String) (m : FilesDB) : FilesDB :=
  m.filter (fun p => p.1 != k)

/-- The observable states of the persisted database file:
absent, present but unparseable, or present with a parsed mapping. -/
inductive DiskFile where
  | missing
  | corrupt
  | content (m : FilesDB)
  deriving DecidableEq, Repr

/-- Name of the persisted database file (`FILES_DB` in both main.py and
web_server.py). -/
def FILES_DB : String := "files_database.json"

/-- `FileDatabase._load_database` (main.py lines 228-237): if the file
exists, parse it; a missing file yields an empty mapping; a parse failure is
caught and yields an empty mapping. The filesystem is a map from path to
`DiskFile`, and `db_file` is the path the instance was constructed with. -/
def FileDatabase.load_database (fs : String → DiskFile) (db_file : String) : FilesDB :=
  match fs db_file with
  | .missing => []
  | .corrupt => []
  | .content m => m

/-- `WebFileManager.load_files_db` (web_server.py lines 66-75): same
read-parse-or-empty logic, hard-wired to the `FILES_DB` path. -/
def WebFileManager.load_files_db (fs : String → DiskFile) : FilesDB :=
  match fs FILES_DB with
  | .missing => []
  | .corrupt => []
  | .content m => m

/-- The in-memory mapping of a `FileDatabase` instance paired with the
current content of its persisted file. -/
structure DbState where
  files : FilesDB
  disk : DiskFile
  deriving DecidableEq, Repr

/-- `FileDatabase._save_database` (main.py lines 239-245): rewrite the whole
file; any write failure is caught and logged, leaving the file as it was.
`diskOk` says whether the write succeeds. The caller-visible return value is
`()` in both cases (the exception never escapes). -/
def FileDatabase.save_database (files : FilesDB) (disk : DiskFile) (diskOk : Bool) :
    DiskFile × Unit :=
  if diskOk then (.content files, ()) else (disk, ())

/-- `FileDatabase.add_file` (main.py lines 247-250): mutate the in-memory
dict, then save; returns `None` (here `()`) regardless of the save outcome. -/
def FileDatabase.add_file (st : DbState) (diskOk : Bool) (file_id : String)
    (file_data : FileMetadata) : DbState × Unit :=
  let files := dictInsert file_id file_data st.files
  (⟨files, (FileDatabase.save_database files st.disk diskOk).1⟩, ())

/-- `FileDatabase.get_file` (main.py lines 252-254): pure in-memory lookup. -/
def FileDatabase.get_file (st : DbState) (file_id : String) : Option FileMetadata :=
  dictGet file_id st.files

/-- `FileDatabase.list_files` (main.py lines 256-258): the whole mapping. -/
def FileDatabase.list_files (st : DbState) : FilesDB :=
  st.files

/-- `FileDatabase.delete_file` (main.py lines 260-266): if present, delete
and save, returning `True`; else return `False`. The save outcome does not
affect the returned Boolean. -/
def FileDatabase.delete_file (st : DbState) (diskOk : Bool) (file_id : String) :
    DbState × Bool :=
  if (dictGet file_id st.files).isSome then
    let files := dictRemove file_id st.files
    (⟨files, (FileDatabase.save_database files st.disk diskOk).1⟩, true)
  else
    (st, false)

/-- Lowercase hexadecimal digit, as produced by `hexdigest()` in Python. -/
def hexDigitChar (n : Nat) : Char :=
  if n < 10 then Char.ofNat (48 + n) else Char.ofNat (87 + n)

/-- Big-endian, zero-padded hexadecimal rendering of `n` on `k` digits. -/
def hexRender : Nat → Nat → List Char
  | 0, _ => []
  | k + 1, n => hexRender k (n / 16) ++ [hexDigitChar (n % 16)]

/-- `hashlib.md5(data).hexdigest()`: a 32-character lowercase hexadecimal
string. The digest function itself is an abstract parameter `h`; only its
128-bit range and the fixed-width rendering matter here. -/
def md5_hexdigest (h : String → Nat) (data : String) : String :=
  String.mk (hexRender 32 (h data % 2 ^ 128))

/-- `generate_file_id` (main.py lines 290-293): hash
`"{file_name}_{file_size}_{now}"` and keep the first 12 hex characters.
`now` is `datetime.now().isoformat()`, an abstract input here. -/
def generate_file_id (h : String → Nat) (now : String) (file_name : String)
    (file_size : Nat) : String :=
  String.mk ((md5_hexdigest h (file_name ++ "_" ++ toString file_size ++ "_" ++ now)).data.take 12)

/-- Percentage of a transfer: `(bytes_transferred / file_size) * 100`,
with exact rational arithmetic in place of Python floats. -/
def percent (file_size bytes_transferred : Nat) : ℚ :=
  ((bytes_transferred : ℚ) / (file_size : ℚ)) * 100

/-- One call of the nested `upload_progress` / `download_progress` closure
(main.py lines 95-107 and 145-157): compute the percentage; notify and
update `last_percentage` when `percentage - last_percentage >= 5` or
`percentage >= 100`; otherwise leave the state alone and stay silent.
Returns the new `last_percentage` and whether a notification was emitted. -/
def throttleStep (file_size : Nat) (last_percentage : ℚ) (bytes_transferred : Nat) :
    ℚ × Bool :=
  let percentage := percent file_size bytes_transferred
  if percentage - last_percentage ≥ 5 ∨ percentage ≥ 100 then
    (percentage, true)
  else
    (last_percentage, false)

/-- Feed a sequence of byte-count samples through the throttler, starting
from a given `last_percentage` (initially `0` in the source); returns the
final `last_percentage` and the per-sample emission flags. -/
def throttleRun (file_size : Nat) (last_percentage : ℚ) :
    List Nat → ℚ × List Bool
  | [] => (last_percentage, [])
  | b :: rest =>
    let s := throttleStep file_size last_percentage b
    let r := throttleRun file_size s.1 rest
    (r.1, s.2 :: r.2)

/-- The fields of the `boto3` `TransferConfig` values that the bot builds. -/
structure TransferConfig where
  multipart_threshold : Nat
  max_concurrency : Nat
  multipart_chunksize : Nat
  use_threads : Bool
  deriving DecidableEq, Repr

/-- The `TransferConfig` passed to `s3_client.upload_file`
(main.py lines 119-124), values written exactly as in the source. -/
def uploadTransferConfig : TransferConfig :=
  { multipart_threshold := 1024 * 25
    max_concurrency := 10
    multipart_chunksize := 1024 * 25
    use_threads := true }

/-- The `TransferConfig` passed to `s3_client.download_file`
(main.py lines 169-174), values written exactly as in the source. -/
def downloadTransferConfig : TransferConfig :=
  { multipart_threshold := 1024 * 25
    max_concurrency := 10
    multipart_chunksize := 1024 * 25
    use_threads := true }

/-- Default file-size ceiling: `int(os.getenv("MAX_FILE_SIZE", "4294967296"))`
with the variable unset (main.py line 43). -/
def MAX_FILE_SIZE : Nat := 4294967296

/-- Outcome reported to the user by `handle_file_upload`. -/
inductive UploadResult where
  | sizeExceeded
  | telegramDownloadFailed
  | uploadFailed
  | ok (file_id : String)
  deriving DecidableEq, Repr

/-- Everything observable about one run of `handle_file_upload`: the reply
sent, the database state afterwards, and which side effects happened. -/
structure UploadOutcome where
  result : UploadResult
  db : DbState
  idGenerated : Bool
  tempCreated : Bool
  tempRemains : Bool
  backendCalled : Bool
  deriving DecidableEq, Repr

/-- `handle_file_upload` (main.py lines 646-746) for a file with the given
name, MIME type, Telegram file id and declared size. Environment inputs:
`cfg_max` is `MAX_FILE_SIZE`; `h`/`nowIso` feed `generate_file_id`;
`nowFmt` is the formatted upload date; `tgOk` says whether
`client.download_media` produces the staged temp file; `upOk` says whether
`storage.upload_file` succeeds; `diskOk` feeds the metadata save.
Control flow follows the source: size check first; then id generation;
then staging; then the backend upload; on success the metadata record is
stored; on either upload outcome the temp file is removed at the end. -/
def handle_file_upload (cfg_max : Nat) (h : String → Nat) (nowIso nowFmt : String)
    (st : DbState) (diskOk tgOk upOk : Bool)
    (file_name mime_type tg_file_id : String) (file_size : Nat) : UploadOutcome :=
  if file_size > cfg_max then
    { result := .sizeExceeded, db := st, idGenerated := false, tempCreated := false
      tempRemains := false, backendCalled := false }
  else
    let file_id := generate_file_id h nowIso file_name file_size
    if tgOk = false then
      { result := .telegramDownloadFailed, db := st, idGenerated := true
        tempCreated := false, tempRemains := false, backendCalled := false }
    else
      let wasabi_key := "files/" ++ file_id ++ "/" ++ file_name
      if upOk then
        let file_metadata : FileMetadata :=
          { name := file_name, size := file_size, mime_type := mime_type
            wasabi_key := wasabi_key, upload_date := nowFmt
            telegram_file_id := tg_file_id }
        { result := .ok file_id
          db := (FileDatabase.add_file st diskOk file_id file_metadata).1
          idGenerated := true, tempCreated := true, tempRemains := false
          backendCalled := true }
      else
        { result := .uploadFailed, db := st, idGenerated := true
          tempCreated := true, tempRemains := false, backendCalled := true }

/-- Outcome reported to the user by `download_command`. -/
inductive DownloadResult where
  | usage
  | notFound
  | failedMessage
  | errorMessage
  | sent
  deriving DecidableEq, Repr

/-- Everything observable about one run of `download_command`: the terminal
reply and whether the temporary download file is still on disk. -/
structure DownloadOutcome where
  result : DownloadResult
  tempRemains : Bool
  deriving DecidableEq, Repr

/-- `download_command` (main.py lines 466-508) for `/download file_id`.
`backendOk` says whether `storage.download_file` returns `True` (writing the
temp file); `partFileCreated` says whether a failed backend download left a
incomplete temp file behind; `deliveryOk` says whether
`reply_document` delivers without raising. In the source, `os.remove` runs
only after a successful `reply_document`; a raised exception jumps to the
`except` handler, and the failure branch never removes anything. -/
def download_command (files : FilesDB) (file_id : String)
    (backendOk partFileCreated deliveryOk : Bool) : DownloadOutcome :=
  match dictGet file_id files with
  | none => { result := .notFound, tempRemains := false }
  | some _ =>
    if backendOk then
      if deliveryOk then
        { result := .sent, tempRemains := false }
      else
        { result := .errorMessage, tempRemains := true }
    else
      { result := .failedMessage, tempRemains := partFileCreated }

/-- Outcome reported to the user by the `confirm_delete_` callback branch. -/
inductive DeleteResult where
  | notFound
  | backendDeleteFailed
  | ok
  deriving DecidableEq, Repr

/-- The `confirm_delete_` branch of `handle_callbacks`
(main.py lines 816-835): look the record up; if absent report not-found;
call `storage.delete_file` on its `wasabi_key` (`backendOk` is the
Boolean outcome); only on success call `file_db.delete_file`; on failure
leave the database untouched and report failure. -/
def handle_confirm_delete (st : DbState) (diskOk : Bool) (backendOk : Bool)
    (file_id : String) : DbState × DeleteResult :=
  match dictGet file_id st.files with
  | none => (st, .notFound)
  | some _ =>
    if backendOk then
      ((FileDatabase.delete_file st diskOk file_id).1, .ok)
    else
      (st, .backendDeleteFailed)

/-- Iterated `FileDatabase.add_file`, used to state properties of put
sequences. -/
def putSeq (st : DbState) (diskOk : Bool) : List (String × FileMetadata) → DbState
  | [] => st
  | (i, d) :: rest => putSeq (FileDatabase.add_file st diskOk i d).1 diskOk rest

/-- A concrete record used to instantiate theorems with hypotheses. -/
def sampleRecord : FileMetadata :=
  { name := "clip.mp4"
    size := 10485760
    mime_type := "video/mp4"
    wasabi_key := "files/ab12cd34ef56/clip.mp4"
    upload_date := "2026-10-12 00:00:00"
    telegram_file_id := "tg1" }

/-! ## Association-list lemmas -/

theorem dictGet_append_of_none (k : String) (m₁ m₂ : FilesDB)
    (h : dictGet k m₁ = none) : dictGet k (m₁ ++ m₂) = dictGet k m₂ := by
  induction m₁ with
  | nil => rfl
  | cons p rest ih =>
    obtain ⟨a, v⟩ := p
    by_cases hak : a = k
    · simp [dictGet, hak] at h
    · simp only [List.cons_append, dictGet, if_neg hak] at h ⊢
      exact ih h

theorem dictGet_insertMap (k : String) (v : FileMetadata) (m : FilesDB)
    (h : (dictGet k m).isSome) :
    dictGet k (m.map fun p => if p.1 = k then (k, v) else p) = some v := by
  induction m with
  | nil => simp [dictGet] at h
  | cons p rest ih =>
    obtain ⟨a, w⟩ := p
    by_cases hak : a = k
    · subst hak
      rw [List.map_cons]
      have hhead : (if (a, w).1 = a then (a, v) else (a, w)) = (a, v) := if_pos rfl
      rw [hhead]
      show (if a = a then some v else
        dictGet a (rest.map fun p => if p.1 = a then (a, v) else p)) = some v
      exact if_pos rfl
    · simp only [List.map_cons]
      have hhead : (if (a, w).1 = k then (k, v) else (a, w)) = (a, w) := if_neg hak
      rw [hhead]
      simp only [dictGet, if_neg hak] at h ⊢
      exact ih h

theorem dictGet_dictInsert_self (k : String) (v : FileMetadata) (m : FilesDB) :
    dictGet k (dictInsert k v m) = some v := by
  unfold dictInsert
  by_cases h : (dictGet k m).isSome
  · simp only [h, if_pos]
    exact dictGet_insertMap k v m h
  · have h0 : dictGet k m = none := by
      cases hm : dictGet k m
      · rfl
      · simp [hm] at h
    simp only [h, Bool.false_eq_true, if_neg, not_false_iff]
    rw [dictGet_append_of_none k m [(k, v)] h0]
    simp [dictGet]

theorem dictGet_dictRemove_self (k : String) (m : FilesDB) :
    dictGet k (dictRemove k m) = none := by
  unfold dictRemove
  induction m with
  | nil => rfl
  | cons p rest ih =>
    obtain ⟨a, v⟩ := p
    by_cases hak : a = k
    · simpa [List.filter_cons, hak] using ih
    · simp [List.filter_cons, hak, dictGet, ih]

theorem dictInsert_fresh (k : String) (v : FileMetadata) (m : FilesDB)
    (h : dictGet k m = none) : dictInsert k v m = m ++ [(k, v)] := by
  simp [dictInsert, h]

theorem hexRender_length (k : Nat) : ∀ n : Nat, (hexRender k n).length = k := by
  induction k with
  | zero => intro n; rfl
  | succ k ih => intro n; simp [hexRender, ih]

theorem generate_file_id_length (h : String → Nat) (now fn : String) (sz : Nat) :
    (generate_file_id h now fn sz).length = 12 := by
  show ((md5_hexdigest h (fn ++ "_" ++ toString sz ++ "_" ++ now)).data.take 12).length = 12
  simp [md5_hexdigest, hexRender_length]

theorem putSeq_length (l : List (String × FileMetadata)) :
    ∀ (st : DbState) (ok : Bool),
      (∀ p ∈ l, dictGet p.1 st.files = none) →
      (l.map Prod.fst).Nodup →
      (putSeq st ok l).files.length = st.files.length + l.length := by
  induction l with
  | nil => intro st ok _ _; simp [putSeq]
  | cons p rest ih =>
    intro st ok hfresh hnodup
    obtain ⟨i, d⟩ := p
    have hi : dictGet i st.files = none := hfresh (i, d) (by simp)
    have hfiles : (FileDatabase.add_file st ok i d).1.files = st.files ++ [(i, d)] := by
      simp [FileDatabase.add_file, dictInsert_fresh i d st.files hi]
    have hcons : (i :: rest.map Prod.fst).Nodup := by
      rw [List.map_cons] at hnodup
      exact hnodup
    have hmem : i ∉ rest.map Prod.fst := (List.nodup_cons.mp hcons).1
    have hrest : ∀ q ∈ rest, dictGet q.1 (FileDatabase.add_file st ok i d).1.files = none := by
      intro q hq
      rw [hfiles, dictGet_append_of_none q.1 st.files [(i, d)] (hfresh q (by simp [hq]))]
      have hne : i ≠ q.1 := by
        intro hcontra
        exact hmem (hcontra ▸ List.mem_map_of_mem Prod.fst hq)
      simp [dictGet, hne]
    have hnodup' : (rest.map Prod.fst).Nodup := (List.nodup_cons.mp hcons).2
    have hlen := ih (FileDatabase.add_file st ok i d).1 ok hrest hnodup'
    show (putSeq (FileDatabase.add_file st ok i d).1 ok rest).files.length = _
    rw [hlen, hfiles]
    simp
    omega

/-! ## Claims -/

/-- C4: the spec claims the multipart threshold and chunk size are both
25 MiB (26214400 bytes) with concurrency 10; the source writes
`1024 * 25` = 25600 bytes (25 KiB) for both size knobs — contradicting its
own `25MB` comments — while `max_concurrency = 10` does hold. -/
theorem C4_transfer_config_values :
    uploadTransferConfig = ⟨25600, 10, 25600, true⟩ ∧
    downloadTransferConfig = ⟨25600, 10, 25600, true⟩ ∧
    (25600 : Nat) ≠ 26214400 := by
  decide

/-- C7 counterexample: a failed persist is invisible to the caller.
`add_file` returns `()` and `delete_file` returns `true` whether or not the
save succeeded, so no failure is reported, even though the disk content is
left behind the in-memory mapping. -/
theorem C7_persistence_counterexample :
    (FileDatabase.add_file ⟨[], .missing⟩ false "a" sampleRecord).2 =
      (FileDatabase.add_file ⟨[], .missing⟩ true "a" sampleRecord).2 ∧
    (FileDatabase.delete_file ⟨[("a", sampleRecord)], .content [("a", sampleRecord)]⟩
        false "a").2 =
      (FileDatabase.delete_file ⟨[("a", sampleRecord)], .content [("a", sampleRecord)]⟩
        true "a").2 ∧
    (FileDatabase.add_file ⟨[], .missing⟩ false "a" sampleRecord).1.disk = .missing ∧
    (FileDatabase.add_file ⟨[], .missing⟩ false "a" sampleRecord).1.files =
      [("a", sampleRecord)] := by
  decide

/-- C7 amended: on a persistence failure the exception is caught and logged
inside `_save_database`, the caller-visible result is identical to the
success case (so the failure is NOT reported to the caller), the in-memory
mapping retains the mutation, and the disk is left unchanged (in-memory
state runs ahead of disk). -/
theorem C7_persistence_amended (st : DbState) (id : String) (r : FileMetadata) :
    ((FileDatabase.add_file st false id r).2 = (FileDatabase.add_file st true id r).2) ∧
    (FileDatabase.add_file st false id r).1.files = dictInsert id r st.files ∧
    dictGet id (FileDatabase.add_file st false id r).1.files = some r ∧
    (FileDatabase.add_file st false id r).1.disk = st.disk ∧
    ((FileDatabase.delete_file st false id).2 = (FileDatabase.delete_file st true id).2) ∧
    (FileDatabase.delete_file st false id).1.files =
      (FileDatabase.delete_file st true id).1.files ∧
    (FileDatabase.delete_file st false id).1.disk = st.disk := by
  refine ⟨rfl, rfl, dictGet_dictInsert_self id r st.files, rfl, ?_, ?_, ?_⟩ <;>
    · unfold FileDatabase.delete_file
      by_cases h : (dictGet id st.files).isSome <;>
        simp [h, FileDatabase.save_database]

/-- C8: `_load_database` returns the parsed mapping when the persisted file
exists and parses; an absent file yields an empty mapping, not an error; an
unparseable file is caught and yields an empty mapping. -/
theorem C8_load_semantics (fs : String → DiskFile) (db_file : String) (m : FilesDB) :
    (fs db_file = .missing → FileDatabase.load_database fs db_file = []) ∧
    (fs db_file = .corrupt → FileDatabase.load_database fs db_file = []) ∧
    (fs db_file = .content m → FileDatabase.load_database fs db_file = m) := by
  refine ⟨?_, ?_, ?_⟩ <;> intro h <;> simp [FileDatabase.load_database, h]

/-- C8 witness: the three storage states at the concrete `FILES_DB` path. -/
theorem C8_load_semantics_witness :
    FileDatabase.load_database (fun _ => .missing) FILES_DB = [] ∧
    FileDatabase.load_database (fun _ => .corrupt) FILES_DB = [] ∧
    FileDatabase.load_database (fun _ => .content [("a", sampleRecord)]) FILES_DB =
      [("a", sampleRecord)] :=
  ⟨(C8_load_semantics (fun _ => .missing) FILES_DB []).1 rfl,
   (C8_load_semantics (fun _ => .corrupt) FILES_DB []).2.1 rfl,
   (C8_load_semantics (fun _ => .content [("a", sampleRecord)]) FILES_DB
      [("a", sampleRecord)]).2.2 rfl⟩

/-- C10: the database loader of the bot at its construction path `FILES_DB`
and the loader of the web server are extensionally equal over every state of the
shared persisted file. -/
theorem C10_loaders_agree (fs : String → DiskFile) :
    FileDatabase.load_database fs FILES_DB = WebFileManager.load_files_db fs := by
  unfold FileDatabase.load_database WebFileManager.load_files_db
  rfl

/-- C1: for a stored identifier, the `confirm_delete_` handler removes the
record from the store iff the backend delete reports success: on backend
failure the store is unchanged and `backendDeleteFailed` is signaled; on
backend success the record is removed and success is reported. -/
theorem C1_delete_removes_iff_backend_success (st : DbState) (diskOk : Bool)
    (id : String) (r : FileMetadata) (h : dictGet id st.files = some r) :
    handle_confirm_delete st diskOk false id = (st, .backendDeleteFailed) ∧
    (handle_confirm_delete st diskOk true id).2 = .ok ∧
    (handle_confirm_delete st diskOk true id).1.files = dictRemove id st.files ∧
    dictGet id (handle_confirm_delete st diskOk true id).1.files = none := by
  have hsome : (dictGet id st.files).isSome := by rw [h]; rfl
  refine ⟨?_, ?_, ?_, ?_⟩ <;>
    simp [handle_confirm_delete, FileDatabase.delete_file, h, hsome,
      dictGet_dictRemove_self]

/-- C1 witness: a one-record store under both backend outcomes. -/
theorem C1_delete_removes_iff_backend_success_witness :
    dictGet "a" (DbState.mk [("a", sampleRecord)] (.content [("a", sampleRecord)])).files =
      some sampleRecord ∧
    (handle_confirm_delete ⟨[("a", sampleRecord)], .content [("a", sampleRecord)]⟩
        true false "a" =
      (⟨[("a", sampleRecord)], .content [("a", sampleRecord)]⟩, .backendDeleteFailed) ∧
    (handle_confirm_delete ⟨[("a", sampleRecord)], .content [("a", sampleRecord)]⟩
        true true "a").2 = .ok ∧
    (handle_confirm_delete ⟨[("a", sampleRecord)], .content [("a", sampleRecord)]⟩
        true true "a").1.files = dictRemove "a" [("a", sampleRecord)] ∧
    dictGet "a" (handle_confirm_delete ⟨[("a", sampleRecord)], .content [("a", sampleRecord)]⟩
        true true "a").1.files = none) :=
  ⟨by decide,
   C1_delete_removes_iff_backend_success
     ⟨[("a", sampleRecord)], .content [("a", sampleRecord)]⟩ true "a" sampleRecord
     (by decide)⟩

/-- C2: a fully successful upload (size within the ceiling, staging and
backend both succeed) whose generated identifier is fresh in the store
appends exactly one record: its identifier has length 12, its recorded size
is the declared size, and its storage key is `files/` + id + `/` + name. -/
theorem C2_upload_persists_record (cfg_max : Nat) (h : String → Nat)
    (nowIso nowFmt : String) (st : DbState) (diskOk : Bool)
    (file_name mime_type tg_file_id : String) (file_size : Nat)
    (hsize : file_size ≤ cfg_max)
    (hfresh : dictGet (generate_file_id h nowIso file_name file_size) st.files = none) :
    (handle_file_upload cfg_max h nowIso nowFmt st diskOk true true
        file_name mime_type tg_file_id file_size).result =
      .ok (generate_file_id h nowIso file_name file_size) ∧
    (generate_file_id h nowIso file_name file_size).length = 12 ∧
    (handle_file_upload cfg_max h nowIso nowFmt st diskOk true true
        file_name mime_type tg_file_id file_size).db.files =
      st.files ++ [(generate_file_id h nowIso file_name file_size,
        { name := file_name
          size := file_size
          mime_type := mime_type
          wasabi_key := "files/" ++ generate_file_id h nowIso file_name file_size
            ++ "/" ++ file_name
          upload_date := nowFmt
          telegram_file_id := tg_file_id })] := by
  have hnot : ¬ file_size > cfg_max := not_lt.mpr hsize
  refine ⟨?_, generate_file_id_length h nowIso file_name file_size, ?_⟩ <;>
    simp [handle_file_upload, hnot, FileDatabase.add_file,
      dictInsert_fresh _ _ _ hfresh]

/-- C2 witness: uploading `clip.mp4` of 10485760 bytes into an empty store
under the default ceiling. -/
theorem C2_upload_persists_record_witness :
    (10485760 : Nat) ≤ MAX_FILE_SIZE ∧
    dictGet (generate_file_id (fun _ => 0) "2026-10-12T00:00:00" "clip.mp4" 10485760)
      (DbState.mk [] .missing).files = none ∧
    ((handle_file_upload MAX_FILE_SIZE (fun _ => 0) "2026-10-12T00:00:00"
        "2026-10-12 00:00:00" ⟨[], .missing⟩ true true true
        "clip.mp4" "video/mp4" "tg1" 10485760).result =
      .ok (generate_file_id (fun _ => 0) "2026-10-12T00:00:00" "clip.mp4" 10485760) ∧
    (generate_file_id (fun _ => 0) "2026-10-12T00:00:00" "clip.mp4" 10485760).length = 12 ∧
    (handle_file_upload MAX_FILE_SIZE (fun _ => 0) "2026-10-12T00:00:00"
        "2026-10-12 00:00:00" ⟨[], .missing⟩ true true true
        "clip.mp4" "video/mp4" "tg1" 10485760).db.files =
      (DbState.mk [] .missing).files ++
        [(generate_file_id (fun _ => 0) "2026-10-12T00:00:00" "clip.mp4" 10485760,
          { name := "clip.mp4"
            size := 10485760
            mime_type := "video/mp4"
            wasabi_key := "files/" ++
              generate_file_id (fun _ => 0) "2026-10-12T00:00:00" "clip.mp4" 10485760
              ++ "/" ++ "clip.mp4"
            upload_date := "2026-10-12 00:00:00"
            telegram_file_id := "tg1" })]) :=
  ⟨by decide, rfl,
   C2_upload_persists_record MAX_FILE_SIZE (fun _ => 0) "2026-10-12T00:00:00"
     "2026-10-12 00:00:00" ⟨[], .missing⟩ true "clip.mp4" "video/mp4" "tg1" 10485760
     (by decide) rfl⟩

/-- C5: an incoming file whose declared size exceeds the ceiling is rejected
with the size-exceeded reply before anything else happens: no identifier is
generated, no temporary file is created, no backend call is made, and the
store is unchanged — independent of every other environment outcome. -/
theorem C5_size_exceeded_rejected (cfg_max : Nat) (h : String → Nat)
    (nowIso nowFmt : String) (st : DbState) (diskOk tgOk upOk : Bool)
    (file_name mime_type tg_file_id : String) (file_size : Nat)
    (hsize : file_size > cfg_max) :
    handle_file_upload cfg_max h nowIso nowFmt st diskOk tgOk upOk
        file_name mime_type tg_file_id file_size =
      { result := .sizeExceeded, db := st, idGenerated := false
        tempCreated := false, tempRemains := false, backendCalled := false } := by
  simp [handle_file_upload, hsize]

/-- C5 witness: a declared size one byte over the default 4294967296 ceiling. -/
theorem C5_size_exceeded_rejected_witness :
    (4294967297 : Nat) > MAX_FILE_SIZE ∧
    handle_file_upload MAX_FILE_SIZE (fun _ => 0) "2026-10-12T00:00:00"
        "2026-10-12 00:00:00" ⟨[], .missing⟩ true true true
        "clip.mp4" "video/mp4" "tg1" 4294967297 =
      { result := .sizeExceeded, db := ⟨[], .missing⟩, idGenerated := false
        tempCreated := false, tempRemains := false, backendCalled := false } :=
  ⟨by decide,
   C5_size_exceeded_rejected MAX_FILE_SIZE (fun _ => 0) "2026-10-12T00:00:00"
     "2026-10-12 00:00:00" ⟨[], .missing⟩ true true true
     "clip.mp4" "video/mp4" "tg1" 4294967297 (by decide)⟩

/-- C9: `add_file` then `get_file` with the same id returns the record;
`delete_file` then `get_file` returns not-found; a sequence of `add_file`
calls with pairwise-distinct ids into an empty store yields exactly as many
records as calls. -/
theorem C9_store_algebra (st : DbState) (ok : Bool) (id : String)
    (r : FileMetadata) (disk : DiskFile) (l : List (String × FileMetadata)) :
    FileDatabase.get_file (FileDatabase.add_file st ok id r).1 id = some r ∧
    FileDatabase.get_file (FileDatabase.delete_file st ok id).1 id = none ∧
    ((l.map Prod.fst).Nodup →
      (FileDatabase.list_files (putSeq ⟨[], disk⟩ ok l)).length = l.length) := by
  refine ⟨dictGet_dictInsert_self id r st.files, ?_, ?_⟩
  · unfold FileDatabase.get_file FileDatabase.delete_file
    by_cases h : (dictGet id st.files).isSome
    · simp only [h, if_pos]
      exact dictGet_dictRemove_self id st.files
    · simp only [h, Bool.false_eq_true, if_neg, not_false_iff]
      cases hm : dictGet id st.files
      · rfl
      · simp [hm] at h
  · intro hnodup
    have := putSeq_length l ⟨[], disk⟩ ok (fun p _ => rfl) hnodup
    simpa [FileDatabase.list_files] using this

/-- C9 witness: two distinct puts, a get and a remove on concrete stores. -/
theorem C9_store_algebra_witness :
    FileDatabase.get_file
      (FileDatabase.add_file ⟨[], .missing⟩ true "a" sampleRecord).1 "a" =
        some sampleRecord ∧
    FileDatabase.get_file
      (FileDatabase.delete_file ⟨[("a", sampleRecord)], .missing⟩ true "a").1 "a" = none ∧
    ([("a", sampleRecord), ("b", sampleRecord)].map
      (Prod.fst (α := String) (β := FileMetadata))).Nodup ∧
    (FileDatabase.list_files (putSeq ⟨[], .missing⟩ true
      [("a", sampleRecord), ("b", sampleRecord)])).length = 2 :=
  ⟨(C9_store_algebra ⟨[], .missing⟩ true "a" sampleRecord .missing []).1,
   (C9_store_algebra ⟨[("a", sampleRecord)], .missing⟩ true "a" sampleRecord .missing []).2.1,
   by decide,
   (C9_store_algebra ⟨[], .missing⟩ true "a" sampleRecord .missing
     [("a", sampleRecord), ("b", sampleRecord)]).2.2 (by decide)⟩

/-- C3 counterexample: the claim requires every sample whose percent is at
most the last emitted percent to be dropped, but the `>= 100` clause of the code
fires regardless. After one sample of 10 of 10 bytes the last emitted
percent is 100; a repeated identical sample has percent 100 ≤ 100, yet the
throttler emits again. -/
theorem C3_throttle_counterexample :
    (throttleRun 10 0 [10]).1 = 100 ∧
    percent 10 10 ≤ (throttleRun 10 0 [10]).1 ∧
    (throttleStep 10 (throttleRun 10 0 [10]).1 10).2 = true := by
  norm_num [throttleRun, throttleStep, percent]

/-- C3 amended: a sample is emitted exactly when
`currentPercent - lastEmittedPercent >= 5` or `currentPercent >= 100`, and a
sample whose percent is at most the last emitted percent is silently dropped
provided its percent is below 100 (at or above 100 the always-emit clause
wins, so repeats of 100 are re-emitted). -/
theorem C3_throttle_amended (fs : Nat) (last : ℚ) (b : Nat) :
    ((throttleStep fs last b).2 = true ↔
      (percent fs b - last ≥ 5 ∨ percent fs b ≥ 100)) ∧
    (percent fs b ≤ last → percent fs b < 100 → (throttleStep fs last b).2 = false) := by
  have hstep : throttleStep fs last b =
      if percent fs b - last ≥ 5 ∨ percent fs b ≥ 100 then (percent fs b, true)
      else (last, false) := rfl
  constructor
  · rw [hstep]
    by_cases hc : percent fs b - last ≥ 5 ∨ percent fs b ≥ 100
    · simp [hc]
    · simp [hc]
  · intro h1 h2
    rw [hstep]
    have hc : ¬ (percent fs b - last ≥ 5 ∨ percent fs b ≥ 100) := by
      push_neg
      exact ⟨by linarith, by linarith⟩
    simp [hc]

/-- C3 witness: a regression sample (3 of 10 bytes, 30%, after an emission
at 50%) is dropped. -/
theorem C3_throttle_amended_witness :
    (((throttleStep 10 50 3).2 = true ↔
        (percent 10 3 - 50 ≥ 5 ∨ percent 10 3 ≥ 100)) ∧
      (percent 10 3 ≤ 50 → percent 10 3 < 100 → (throttleStep 10 50 3).2 = false)) ∧
    percent 10 3 ≤ 50 ∧ percent 10 3 < 100 ∧ (throttleStep 10 50 3).2 = false :=
  ⟨C3_throttle_amended 10 50 3,
   by norm_num [percent],
   by norm_num [percent],
   (C3_throttle_amended 10 50 3).2 (by norm_num [percent]) (by norm_num [percent])⟩

/-- C6 counterexample: the temporary download file is not removed on every
exit path. With a stored record, a successful backend download followed by a
failed delivery leaves the temp file behind (the exception skips
`os.remove`); and a failed backend download that wrote a part of the file
leaves that part behind (the failure branch removes nothing). -/
theorem C6_temp_cleanup_counterexample :
    (download_command [("a", sampleRecord)] "a" true false false).tempRemains = true ∧
    (download_command [("a", sampleRecord)] "a" false true true).tempRemains = true := by
  decide

/-- C6 amended: the temporary file is removed only on the full success path.
For a stored identifier it is absent afterwards iff either the backend
download and the delivery both succeeded, or the backend download failed
without writing any part of the file; a delivery failure after a successful
download leaves the temp file, and a failed download leaves whatever part
was written. -/
theorem C6_temp_cleanup_amended (files : FilesDB) (id : String)
    (bOk pc dOk : Bool) (h : (dictGet id files).isSome) :
    ((download_command files id bOk pc dOk).tempRemains = false ↔
      ((bOk = true ∧ dOk = true) ∨ (bOk = false ∧ pc = false))) ∧
    (bOk = true → dOk = true →
      download_command files id bOk pc dOk = ⟨.sent, false⟩) := by
  cases hm : dictGet id files with
  | none => simp [hm] at h
  | some r =>
    unfold download_command
    rw [hm]
    cases bOk <;> cases pc <;> cases dOk <;> simp

/-- C6 witness: the full success path on a one-record store removes the
temp file. -/
theorem C6_temp_cleanup_amended_witness :
    (dictGet "a" [("a", sampleRecord)]).isSome ∧
    (((download_command [("a", sampleRecord)] "a" true false true).tempRemains = false ↔
        ((true = true ∧ true = true) ∨ (true = false ∧ false = false))) ∧
      (true = true → true = true →
        download_command [("a", sampleRecord)] "a" true false true = ⟨.sent, false⟩)) ∧
    download_command [("a", sampleRecord)] "a" true false true = ⟨.sent, false⟩ :=
  ⟨by decide,
   C6_temp_cleanup_amended [("a", sampleRecord)] "a" true false true (by decide),
   (C6_temp_cleanup_amended [("a", sampleRecord)] "a" true false true (by decide)).2
     rfl rfl⟩

end Wasabibot
